import Mathlib

/-!
Verification of the core orchestration engine of the whatsapp-microservice
repository: the per-session delivery queue (src/queue/queue.ts), the drip
scheduler and storage poller (src/index.ts), the webhook dispatcher
(src/webhooks/notify.ts), the session manager (src/whatsapp/SessionManager.ts)
and the SSE broadcaster (src/events/broadcaster.ts), shallowly embedded as
pure Lean functions over explicit state.
-/

namespace WhatsappService

/-! Association lists standing in for the JS `Map` objects used throughout
the source (insertion ordered, unique keys, set/get/delete). -/

/-- Lookup in an association list, mirroring `Map.get`. -/
def getAssoc {α : Type} : List (String × α) → String → Option α
  | [], _ => none
  | p :: xs, k => if p.1 = k then some p.2 else getAssoc xs k

/-- Update in an association list, mirroring `Map.set`: replace the first
binding of the key in place, or append a new binding at the end. -/
def setAssoc {α : Type} : List (String × α) → String → α → List (String × α)
  | [], k, v => [(k, v)]
  | p :: xs, k, v => if p.1 = k then (k, v) :: xs else p :: setAssoc xs k v

/-- Deletion from an association list, mirroring `Map.delete`. -/
def eraseAssoc {α : Type} : List (String × α) → String → List (String × α)
  | [], _ => []
  | p :: xs, k => if p.1 = k then xs else p :: eraseAssoc xs k

/-! Data model: QueuedMessage from src/types/index.ts. Optional string
fields model the `string | null | undefined` fields of the source. -/

structure QueuedMessage where
  id : String
  jid : Option String
  phoneNumber : Option String
  message : String
  retries : Nat
  sessionId : String
deriving DecidableEq, Repr

/-- JS truthiness of an optional string: `null`, `undefined` and the empty
string are falsy. -/
def strTruthy : Option String → Bool
  | none => false
  | some s => s ≠ ""

/-- The JS expression `a || b` on two optional strings. -/
def jsOr (a b : Option String) : Option String :=
  if strTruthy a then a else b

/-- The JS expression `a || b` where `b` is a plain string. -/
def jsOrStr (a : Option String) (b : String) : String :=
  match a with
  | some s => if s = "" then b else s
  | none => b

/-- The session key used by MessageQueue: `message.sessionId || 'default'`
(src/queue/queue.ts line 8). -/
def sessionKey (m : QueuedMessage) : String :=
  if m.sessionId = "" then "default" else m.sessionId

/-! MessageQueue state (src/queue/queue.ts): per-session FIFO queues plus a
global set of already-dequeued message ids. -/

structure QueueState where
  queues : List (String × List QueuedMessage)
  processedIds : List String
deriving DecidableEq, Repr

def emptyQueueState : QueueState := { queues := [], processedIds := [] }

/-- MessageQueue.enqueue (src/queue/queue.ts lines 7 to 28): skip if the id
was already processed, skip if the id is already in the session queue,
otherwise push at the tail. -/
def enqueue (s : QueueState) (m : QueuedMessage) : QueueState :=
  if m.id ∈ s.processedIds then s
  else if ((getAssoc s.queues (sessionKey m)).getD []).any (fun x => x.id == m.id) then s
  else
    { s with
      queues :=
        setAssoc s.queues (sessionKey m) (((getAssoc s.queues (sessionKey m)).getD []) ++ [m]) }

/-- MessageQueue.dequeue (src/queue/queue.ts lines 30 to 40): pop the head
of the session queue and record its id in the processed set. -/
def dequeue (s : QueueState) (sid : String) : Option QueuedMessage × QueueState :=
  match getAssoc s.queues sid with
  | none => (none, s)
  | some [] => (none, s)
  | some (m :: rest) =>
    (some m,
      { queues := setAssoc s.queues sid rest,
        processedIds :=
          if m.id ∈ s.processedIds then s.processedIds else s.processedIds ++ [m.id] })

/-- MessageQueue.size (src/queue/queue.ts lines 42 to 44). -/
def queueSize (s : QueueState) (sid : String) : Nat :=
  ((getAssoc s.queues sid).getD []).length

/-- MessageQueue.isEmpty (src/queue/queue.ts lines 46 to 48). -/
def isQueueEmpty (s : QueueState) (sid : String) : Bool :=
  queueSize s sid = 0

/-- MessageQueue.clear (src/queue/queue.ts lines 50 to 53). -/
def clearQueue (s : QueueState) (sid : String) : QueueState :=
  { s with queues := setAssoc s.queues sid [] }

/-- MessageQueue.clearAllQueues (src/queue/queue.ts lines 55 to 58). -/
def clearAllQueues (s : QueueState) : QueueState :=
  { s with queues := [] }

/-- MessageQueue.clearProcessedIds (src/queue/queue.ts lines 60 to 63). -/
def clearProcessedIds (s : QueueState) : QueueState :=
  { s with processedIds := [] }

/-- Number of entries carrying a given message id in a given session queue. -/
def countId (s : QueueState) (sid : String) (msgId : String) : Nat :=
  ((getAssoc s.queues sid).getD []).countP (fun x => x.id == msgId)

/-- The public operations of MessageQueue, used to state persistence of the
processed-id set across later activity. -/
inductive QueueOp where
  | enqueueOp (m : QueuedMessage)
  | dequeueOp (sid : String)
  | clearOp (sid : String)
  | clearAllQueuesOp
  | clearProcessedIdsOp
deriving DecidableEq, Repr

def applyOp (s : QueueState) : QueueOp → QueueState
  | .enqueueOp m => enqueue s m
  | .dequeueOp sid => (dequeue s sid).2
  | .clearOp sid => clearQueue s sid
  | .clearAllQueuesOp => clearAllQueues s
  | .clearProcessedIdsOp => clearProcessedIds s

def applyOps (s : QueueState) (ops : List QueueOp) : QueueState :=
  ops.foldl applyOp s

/-! Drip scheduler (processDripQueue, src/index.ts lines 97 to 186). The
state carries the single-flight guard for the session, the connection flag
queried from the SessionManager, socket availability, the shared queue, and
the storage side effects issued so far (ids marked SENT, ids marked FAILED,
and the number of sendMessage invocations). Send outcomes are supplied by
an oracle `sendOk id retries`. -/

structure DripState where
  sendingLock : Bool
  connected : Bool
  socketAvailable : Bool
  queue : QueueState
  sentIds : List String
  failedIds : List String
  attempts : Nat
deriving DecidableEq, Repr

/-- processDripQueue (src/index.ts lines 97 to 186): skip when the
single-flight guard is held or the queue is empty; skip when the session is
not connected; otherwise dequeue one message, check the recipient, send, and
on failure either re-enqueue with an incremented retry counter (below the
ceiling) or mark the record failed (at or above the ceiling). -/
def processDripQueue (maxRetries : Nat) (sendOk : String → Nat → Bool)
    (st : DripState) (sid : String) : DripState :=
  if st.sendingLock || isQueueEmpty st.queue sid then st
  else if st.connected = false then st
  else
    match dequeue st.queue sid with
    | (none, q) => { st with queue := q }
    | (some m, q) =>
      let st1 := { st with queue := q }
      if strTruthy (jsOr m.jid m.phoneNumber) = false then
        { st1 with failedIds := st1.failedIds ++ [m.id] }
      else if st.socketAvailable = false then st1
      else if sendOk m.id m.retries then
        { st1 with attempts := st1.attempts + 1, sentIds := st1.sentIds ++ [m.id] }
      else
        let st2 := { st1 with attempts := st1.attempts + 1 }
        if m.retries < maxRetries then
          { st2 with queue := enqueue st2.queue { m with retries := m.retries + 1 } }
        else
          { st2 with failedIds := st2.failedIds ++ [m.id] }

/-- Iterated scheduler ticks for one session. -/
def runDripTicks (maxRetries : Nat) (sendOk : String → Nat → Bool)
    (st : DripState) (sid : String) : Nat → DripState
  | 0 => st
  | n + 1 => runDripTicks maxRetries sendOk (processDripQueue maxRetries sendOk st sid) sid n

/-! Scenario of claim C1: messages A, B, C enqueued in order for session S
with maxRetries 1; the first delivery attempt for A fails and any further
attempt would succeed; B and C succeed on the first try. -/

def c1MsgA : QueuedMessage :=
  { id := "A", jid := some "111@s.whatsapp.net", phoneNumber := none,
    message := "first", retries := 0, sessionId := "S" }

def c1MsgB : QueuedMessage :=
  { id := "B", jid := some "222@s.whatsapp.net", phoneNumber := none,
    message := "second", retries := 0, sessionId := "S" }

def c1MsgC : QueuedMessage :=
  { id := "C", jid := some "333@s.whatsapp.net", phoneNumber := none,
    message := "third", retries := 0, sessionId := "S" }

def c1SendOk : String → Nat → Bool :=
  fun msgId r => if msgId = "A" then decide (1 ≤ r) else true

def c1Init : DripState :=
  { sendingLock := false, connected := true, socketAvailable := true,
    queue := enqueue (enqueue (enqueue emptyQueueState c1MsgA) c1MsgB) c1MsgC,
    sentIds := [], failedIds := [], attempts := 0 }

def c1Final : DripState := runDripTicks 1 c1SendOk c1Init "S" 6

/-! Webhook dispatcher (notifyTenant, src/webhooks/notify.ts lines 22 to
107). An attempt is recorded with the delay slept before it, the value of
the X-Webhook-Attempt header, and the X-Webhook-Signature value if any.
The HMAC-SHA256 primitive lives in the external node crypto module, so the
model is parametric in an `hmac payload secret` function; the source
computes the signature once, before the retry loop. -/

structure WebhookAttemptRec where
  delayBefore : Nat
  headerAttempt : Nat
  signature : Option String
deriving DecidableEq, Repr

/-- The fixed delay schedule of notifyTenant (src/webhooks/notify.ts line
33): immediate, 5 s, 30 s, 5 min, in milliseconds. -/
def webhookDelays : List Nat := [0, 5000, 30000, 300000]

/-- Delay slept before a given attempt: the source skips the sleep on
attempt 0 and sleeps `delays[attempt]` before later attempts. -/
def attemptDelay (attempt : Nat) : Nat :=
  if attempt = 0 then 0 else webhookDelays.getD attempt 0

/-- The retry loop of notifyTenant: perform attempts until the first
success or until `maxRetries` attempts have been made. `ok i` tells whether
the HTTP POST of attempt `i` succeeds. -/
def notifyTenantLoop (sig : Option String) (ok : Nat → Bool) :
    Nat → Nat → List WebhookAttemptRec
  | 0, _ => []
  | fuel + 1, attempt =>
    let att : WebhookAttemptRec :=
      { delayBefore := attemptDelay attempt, headerAttempt := attempt + 1, signature := sig }
    if ok attempt then [att]
    else att :: notifyTenantLoop sig ok fuel (attempt + 1)

/-- notifyTenant (src/webhooks/notify.ts lines 22 to 107): silent no-op
when no webhook URL is configured; otherwise the payload is serialized and
signed once and the retry loop runs with at most `maxRetries` attempts. -/
def notifyTenant (hmac : String → String → String) (webhookUrl payload : String)
    (secret : Option String) (ok : Nat → Bool) (maxRetries : Nat) :
    List WebhookAttemptRec :=
  if webhookUrl = "" then []
  else notifyTenantLoop (secret.map (fun sec => hmac payload sec)) ok maxRetries 0

/-- Concrete stand-in for the external HMAC-SHA256 primitive, used only to
instantiate the parametric model at concrete inputs. -/
def hmacModel : String → String → String :=
  fun payload sec => String.append (String.append sec ":") payload

/-! SessionManager (src/whatsapp/SessionManager.ts). Per-session data as in
the SessionData interface (lines 28 to 34); the manager state also tracks
which credential directories exist on disk. -/

structure MSessionData where
  connected : Bool
  reconnectAttempts : Nat
  authPath : String
  qrCode : Option String
deriving DecidableEq, Repr

structure SMState where
  sessions : List (String × MSessionData)
  authFiles : List String
deriving DecidableEq, Repr

/-- SessionManager.maxReconnectAttempts (src/whatsapp/SessionManager.ts
line 38). -/
def maxReconnectAttempts : Nat := 5

def defaultAuthPath (sessionId : String) : String := "auth_info_" ++ sessionId

/-- The SessionData record built by createSession for a new session
(src/whatsapp/SessionManager.ts lines 69 to 75). -/
def freshSessionData (authPath : String) : MSessionData :=
  { connected := false, reconnectAttempts := 0, authPath := authPath, qrCode := none }

/-- SessionManager.createSession (src/whatsapp/SessionManager.ts lines 41
to 83): reuse an existing session, otherwise register fresh session data. -/
def createSession (s : SMState) (sessionId : String) (authPath : String) : SMState :=
  match getAssoc s.sessions sessionId with
  | some _ => s
  | none => { s with sessions := s.sessions ++ [(sessionId, freshSessionData authPath)] }

/-- SessionManager.handleLogoutAndRegenerate (src/whatsapp/SessionManager.ts
lines 399 to 432): drop the session from the map, delete its credential
directory, and create a fresh session on the same auth path. -/
def handleLogoutAndRegenerate (s : SMState) (sessionId : String) : SMState :=
  match getAssoc s.sessions sessionId with
  | none => s
  | some d =>
    let s1 : SMState :=
      { sessions := eraseAssoc s.sessions sessionId,
        authFiles := s.authFiles.filter (fun a => a ≠ d.authPath) }
    createSession s1 sessionId d.authPath

/-- SessionManager.reconnectSession (src/whatsapp/SessionManager.ts lines
434 to 450): drop the old session and create a new one with the same auth
path (so with a freshly initialized reconnect-attempt counter). -/
def reconnectSession (s : SMState) (sessionId : String) : SMState :=
  match getAssoc s.sessions sessionId with
  | none => s
  | some d =>
    createSession { s with sessions := eraseAssoc s.sessions sessionId } sessionId d.authPath

/-- The connection-close handler for a recoverable cause (statusCode not
loggedOut), src/whatsapp/SessionManager.ts lines 113 to 153: mark the
session disconnected; below the attempt ceiling, increment the counter and
schedule a reconnect after `min(1000 * 2 ^ attempts, 30000)` ms computed
from the already incremented counter; at the ceiling, regenerate. The
second component is the scheduled reconnect delay, if any. -/
def closeRecoverable (s : SMState) (sessionId : String) : SMState × Option Nat :=
  match getAssoc s.sessions sessionId with
  | none => (handleLogoutAndRegenerate s sessionId, none)
  | some d =>
    let d1 : MSessionData := { d with connected := false }
    if d1.reconnectAttempts < maxReconnectAttempts then
      let d2 : MSessionData := { d1 with reconnectAttempts := d1.reconnectAttempts + 1 }
      ({ s with sessions := setAssoc s.sessions sessionId d2 },
        some (min (1000 * 2 ^ d2.reconnectAttempts) 30000))
    else
      (handleLogoutAndRegenerate
        { s with sessions := setAssoc s.sessions sessionId d1 } sessionId, none)

/-- The connection-open handler (src/whatsapp/SessionManager.ts lines 161
to 188): mark connected, reset the reconnect-attempt counter, clear the
pending QR code. -/
def openEvent (s : SMState) (sessionId : String) : SMState :=
  match getAssoc s.sessions sessionId with
  | none => s
  | some d =>
    let d1 : MSessionData := { d with connected := true, reconnectAttempts := 0, qrCode := none }
    { s with sessions := setAssoc s.sessions sessionId d1 }

/-- The driver logout call, which can throw. -/
def socketLogout (logoutFails : Bool) : Except String Unit :=
  if logoutFails then Except.error "logout failed" else Except.ok ()

/-- The auth path used by deleteSession:
`sessionData?.authPath || auth_info_sessionId`. -/
def authPathFor (s : SMState) (sessionId : String) : String :=
  match getAssoc s.sessions sessionId with
  | some d => d.authPath
  | none => defaultAuthPath sessionId

/-- SessionManager.deleteSession (src/whatsapp/SessionManager.ts lines 505
to 540): best-effort logout with the error swallowed, removal from the
session map, deletion of the credential directory; total even when the
session is absent. -/
def deleteSession (s : SMState) (sessionId : String) (logoutFails : Bool) :
    Except String SMState :=
  let sessionData := getAssoc s.sessions sessionId
  let _logoutOutcome : Option Unit :=
    match sessionData with
    | some _ => (socketLogout logoutFails).toOption
    | none => some ()
  Except.ok
    { sessions := eraseAssoc s.sessions sessionId,
      authFiles := s.authFiles.filter (fun a => a ≠ authPathFor s sessionId) }

/-! Scenario of claim C4: session S connected with credentials on disk
receives six recoverable link losses, each scheduled reconnect firing
before the next loss. -/

def c4InitData : MSessionData :=
  { connected := true, reconnectAttempts := 0, authPath := "auth_info_S", qrCode := none }

def c4Init : SMState :=
  { sessions := [("S", c4InitData)], authFiles := ["auth_info_S"] }

/-- One link loss followed by its scheduled reconnect firing. -/
def c4Step (s : SMState) : SMState :=
  reconnectSession (closeRecoverable s "S").1 "S"

def c4Final : SMState := c4Step (c4Step (c4Step (c4Step (c4Step (c4Step c4Init)))))

/-! SSE broadcaster (src/events/broadcaster.ts). Viewers are abstract
handles; a JS `Set` is modeled as a duplicate-free list in insertion
order. Write failures during a broadcast are given by a predicate on
viewers. -/

abbrev Viewer := Nat

structure SSEState where
  sseClients : List (String × List Viewer)
deriving DecidableEq, Repr

/-- addSSEClient (src/events/broadcaster.ts lines 45 to 52). -/
def addSSEClient (s : SSEState) (sid : String) (v : Viewer) : SSEState :=
  match getAssoc s.sseClients sid with
  | none => { sseClients := setAssoc s.sseClients sid [v] }
  | some vs =>
    { sseClients := setAssoc s.sseClients sid (if v ∈ vs then vs else vs ++ [v]) }

/-- removeSSEClient (src/events/broadcaster.ts lines 59 to 72): delete the
viewer and prune the session entry when its set becomes empty. -/
def removeSSEClient (s : SSEState) (sid : String) (v : Viewer) : SSEState :=
  match getAssoc s.sseClients sid with
  | none => s
  | some vs =>
    let vs' := vs.filter (fun x => x ≠ v)
    if vs'.length = 0 then { sseClients := eraseAssoc s.sseClients sid }
    else { sseClients := setAssoc s.sseClients sid vs' }

/-- broadcastMessageToSSE (src/events/broadcaster.ts lines 14 to 38):
no-op when the session has no registered viewers; otherwise write to every
viewer, dropping from the set each viewer whose write fails. `writeOk v`
tells whether the write to viewer `v` succeeds. -/
def broadcastMessageToSSE (s : SSEState) (sid : String) (writeOk : Viewer → Bool) : SSEState :=
  match getAssoc s.sseClients sid with
  | none => s
  | some vs =>
    if vs.length = 0 then s
    else { sseClients := setAssoc s.sseClients sid (vs.filter writeOk) }

/-- The pruning invariant of the broadcaster map: no session id is bound to
an empty viewer set. -/
def noEmptySets (s : SSEState) : Prop :=
  ∀ p ∈ s.sseClients, p.2 ≠ []

/-! Storage poller (pollSupabaseForMessages, src/index.ts lines 57 to 95).
A polled record is a row of the messages table; the poller marks records
without any recipient identifier as failed and enqueues the others. -/

structure PolledMessage where
  id : String
  jid : Option String
  phone_number : Option String
  message : String
  session_id : Option String
deriving DecidableEq, Repr

inductive PollEffect where
  | markFailed (msgId reason : String)
  | enqueued (msgId : String)
deriving DecidableEq, Repr

/-- The QueuedMessage built from a polled record (src/index.ts lines 79 to
86). -/
def polledToQueued (sid : String) (msg : PolledMessage) : QueuedMessage :=
  { id := msg.id, jid := msg.jid, phoneNumber := msg.phone_number,
    message := msg.message, retries := 0, sessionId := jsOrStr msg.session_id sid }

/-- Processing of one polled record (src/index.ts lines 70 to 88):
`const recipient = msg.jid || msg.phone_number`; a falsy recipient is
marked failed with a descriptive reason and never enqueued. -/
def pollStep (sid : String) (acc : QueueState × List PollEffect) (msg : PolledMessage) :
    QueueState × List PollEffect :=
  if strTruthy (jsOr msg.jid msg.phone_number) = false then
    (acc.1, acc.2 ++ [PollEffect.markFailed msg.id "No recipient identifier provided"])
  else
    (enqueue acc.1 (polledToQueued sid msg), acc.2 ++ [PollEffect.enqueued msg.id])

/-- pollSupabaseForMessages over a fetched batch of records. -/
def pollSupabaseForMessages (sid : String) (msgs : List PolledMessage) (q : QueueState) :
    QueueState × List PollEffect :=
  msgs.foldl (pollStep sid) (q, [])

/-! Concrete instances used by the witnesses. -/

def c2State : QueueState := enqueue emptyQueueState c1MsgA

def c8Msg : PolledMessage :=
  { id := "m1", jid := none, phone_number := some "", message := "hello",
    session_id := none }

def c10State : DripState :=
  { sendingLock := true, connected := true, socketAvailable := true,
    queue := enqueue emptyQueueState c1MsgA, sentIds := [], failedIds := [], attempts := 0 }

def c7Viewers : SSEState := { sseClients := [("S", [7])] }

def c7BadState : SSEState :=
  broadcastMessageToSSE (addSSEClient { sseClients := [] } "S" 0) "S" (fun _ => false)

/-- Webhook outcome oracle of the spec scenario: the first attempt fails,
every later attempt succeeds. -/
def c3Ok : Nat → Bool := fun i => decide (1 ≤ i)

/-! Helper lemmas about the association-list operations. -/

theorem getAssoc_setAssoc_self {α : Type} (xs : List (String × α)) (k : String) (v : α) :
    getAssoc (setAssoc xs k v) k = some v := by
  induction xs with
  | nil => simp [setAssoc, getAssoc]
  | cons p xs ih =>
    by_cases h : p.1 = k
    · simp [setAssoc, getAssoc, h]
    · simp [setAssoc, getAssoc, h, ih]

theorem mem_setAssoc {α : Type} (xs : List (String × α)) (k : String) (v : α)
    (p : String × α) (hp : p ∈ setAssoc xs k v) : p = (k, v) ∨ p ∈ xs := by
  induction xs with
  | nil =>
    simp [setAssoc] at hp
    exact Or.inl hp
  | cons q xs ih =>
    by_cases h : q.1 = k
    · rw [setAssoc, if_pos h] at hp
      rcases List.mem_cons.mp hp with h1 | h1
      · exact Or.inl h1
      · exact Or.inr (List.mem_cons_of_mem _ h1)
    · rw [setAssoc, if_neg h] at hp
      rcases List.mem_cons.mp hp with h1 | h1
      · exact Or.inr (h1 ▸ List.mem_cons_self _ _)
      · rcases ih h1 with h2 | h2
        · exact Or.inl h2
        · exact Or.inr (List.mem_cons_of_mem _ h2)

theorem mem_eraseAssoc {α : Type} (xs : List (String × α)) (k : String)
    (p : String × α) (hp : p ∈ eraseAssoc xs k) : p ∈ xs := by
  induction xs with
  | nil => simp [eraseAssoc] at hp
  | cons q xs ih =>
    by_cases h : q.1 = k
    · rw [eraseAssoc, if_pos h] at hp
      exact List.mem_cons_of_mem _ hp
    · rw [eraseAssoc, if_neg h] at hp
      rcases List.mem_cons.mp hp with h1 | h1
      · exact h1 ▸ List.mem_cons_self _ _
      · exact List.mem_cons_of_mem _ (ih h1)

theorem getAssoc_mem {α : Type} (xs : List (String × α)) (k : String) (v : α)
    (h : getAssoc xs k = some v) : (k, v) ∈ xs := by
  induction xs with
  | nil => simp [getAssoc] at h
  | cons p xs ih =>
    by_cases hk : p.1 = k
    · rw [getAssoc, if_pos hk] at h
      obtain rfl : p.2 = v := Option.some_injective _ h
      have : p = (k, p.2) := by
        cases p
        simpa using hk
      exact this ▸ List.mem_cons_self _ _
    · rw [getAssoc, if_neg hk] at h
      exact List.mem_cons_of_mem _ (ih h)

/-! Helper lemmas about the queue operations. -/

theorem enqueue_of_processed (s : QueueState) (m : QueuedMessage)
    (h : m.id ∈ s.processedIds) : enqueue s m = s := by
  unfold enqueue
  rw [if_pos h]

theorem enqueue_processedIds (s : QueueState) (m : QueuedMessage) :
    (enqueue s m).processedIds = s.processedIds := by
  unfold enqueue
  split
  · rfl
  · split
    · rfl
    · rfl

theorem dequeue_mem_processed (s : QueueState) (sid : String) (m : QueuedMessage)
    (h : (dequeue s sid).1 = some m) : m.id ∈ (dequeue s sid).2.processedIds := by
  unfold dequeue at h ⊢
  cases hq : getAssoc s.queues sid with
  | none =>
    rw [hq] at h
    simp at h
  | some q =>
    cases q with
    | nil =>
      rw [hq] at h
      simp at h
    | cons a rest =>
      rw [hq] at h
      dsimp only at h ⊢
      obtain rfl : a = m := by simpa using h
      by_cases hmem : a.id ∈ s.processedIds
      · simp [hmem]
      · simp [hmem]

theorem processedIds_mono (s : QueueState) (op : QueueOp) (x : String)
    (hop : op ≠ QueueOp.clearProcessedIdsOp) (hx : x ∈ s.processedIds) :
    x ∈ (applyOp s op).processedIds := by
  cases op with
  | enqueueOp m => rw [applyOp, enqueue_processedIds]; exact hx
  | dequeueOp sid =>
    rw [applyOp]
    unfold dequeue
    cases hq : getAssoc s.queues sid with
    | none => exact hx
    | some q =>
      cases q with
      | nil => exact hx
      | cons a rest =>
        dsimp only
        by_cases hmem : a.id ∈ s.processedIds
        · simpa [hmem] using hx
        · simp only [hmem, if_false]
          exact List.mem_append_left _ hx
  | clearOp sid => exact hx
  | clearAllQueuesOp => exact hx
  | clearProcessedIdsOp => exact absurd rfl hop

theorem processedIds_mono_ops (x : String) (ops : List QueueOp)
    (hops : QueueOp.clearProcessedIdsOp ∉ ops) :
    ∀ s : QueueState, x ∈ s.processedIds → x ∈ (applyOps s ops).processedIds := by
  induction ops with
  | nil => intro s hx; exact hx
  | cons op rest ih =>
    intro s hx
    have hop : op ≠ QueueOp.clearProcessedIdsOp := fun h => hops (h ▸ List.mem_cons_self _ _)
    have hrest : QueueOp.clearProcessedIdsOp ∉ rest := fun h => hops (List.mem_cons_of_mem _ h)
    exact ih hrest (applyOp s op) (processedIds_mono s op x hop hx)

theorem enqueue_of_inqueue (s : QueueState) (m : QueuedMessage)
    (hp : m.id ∉ s.processedIds)
    (hq : ((getAssoc s.queues (sessionKey m)).getD []).any (fun x => x.id == m.id) = true) :
    enqueue s m = s := by
  unfold enqueue
  rw [if_neg hp, if_pos hq]

theorem enqueue_push (s : QueueState) (m : QueuedMessage)
    (hp : m.id ∉ s.processedIds)
    (hq : ¬ ((getAssoc s.queues (sessionKey m)).getD []).any (fun x => x.id == m.id) = true) :
    enqueue s m =
      { queues :=
          setAssoc s.queues (sessionKey m) (((getAssoc s.queues (sessionKey m)).getD []) ++ [m]),
        processedIds := s.processedIds } := by
  unfold enqueue
  rw [if_neg hp, if_neg hq]

/-! Claim theorems. -/

/-- C1: the spec expects a failed message below the retry ceiling to be
re-enqueued at the tail and retried, with the A, B, C scenario ending as
B, C, A all sent after 4 attempts. The code instead drops A: dequeue puts
the id in the processed set, so the retry enqueue is a silent no-op. After
the scenario runs to quiescence, only B and C are sent, A is neither sent
nor failed, and only 3 delivery attempts happen. -/
theorem C1_failed_retry_is_dropped :
    c1Final.sentIds = ["B", "C"] ∧ c1Final.failedIds = [] ∧ c1Final.attempts = 3 ∧
    isQueueEmpty c1Final.queue "S" = true ∧ c1Final.sentIds ≠ ["B", "C", "A"] := by
  refine ⟨rfl, rfl, rfl, rfl, ?_⟩
  decide

/-- C4: the spec expects six recoverable link losses with
maxReconnectAttempts 5 to destroy the credentials and start a fresh
pairing flow. In the code every scheduled reconnect re-creates the session
with a reconnect-attempt counter of 0, so after six loss-and-reconnect
rounds the credentials still exist, the session is registered with counter
0 and the regenerate branch is never reached. -/
theorem C4_ceiling_never_reached :
    c4Final.authFiles = ["auth_info_S"] ∧
    getAssoc c4Final.sessions "S" = some (freshSessionData "auth_info_S") ∧
    (freshSessionData "auth_info_S").reconnectAttempts = 0 ∧
    "auth_info_S" ∈ c4Final.authFiles := by
  refine ⟨rfl, rfl, rfl, ?_⟩
  decide

/-- C5 counterexample: the first reconnect after a successful connection
(attempt counter 0) is scheduled with delay 2000 ms, not
min(1000 * 2 ^ 0, 30000) = 1000 ms as the claim states, because the code
increments the counter before computing the delay. -/
theorem C5_first_delay_counterexample :
    (closeRecoverable c4Init "S").2 = some 2000 ∧
    min (1000 * 2 ^ (0 : Nat)) 30000 = 1000 ∧ (2000 : Nat) ≠ 1000 := by
  refine ⟨rfl, by decide, by decide⟩

/-- C3 counterexample: the attempt with index 0 (counting attempts from 0,
as the claim does) carries X-Webhook-Attempt 1, not 0: the header value is
the attempt index plus one. -/
theorem C3_header_counterexample :
    ((notifyTenant hmacModel "https://tenant.example" "payload" (some "sec")
        (fun _ => true) 3).map (fun a => a.headerAttempt)) = [1] ∧
    ((notifyTenant hmacModel "https://tenant.example" "payload" (some "sec")
        (fun _ => true) 3).map (fun a => a.headerAttempt)) ≠ [0] := by
  refine ⟨rfl, ?_⟩
  decide

/-- C7 counterexample: broadcasting to a session whose only viewer fails
to accept the write removes the viewer but leaves the session bound to an
empty set, so the no-empty-sets invariant is violated right after a
broadcaster operation. -/
theorem C7_broadcast_leaves_empty_set :
    c7BadState.sseClients = [("S", ([] : List Viewer))] ∧ ¬ noEmptySets c7BadState := by
  refine ⟨rfl, ?_⟩
  intro h
  have hmem : (("S", ([] : List Viewer)) : String × List Viewer) ∈ c7BadState.sseClients := by
    rw [show c7BadState.sseClients = [("S", ([] : List Viewer))] from rfl]
    exact List.mem_singleton_self _
  exact h ("S", []) hmem rfl

/-- C9: deleteSession always completes with the session removed from the
registry and its credential directory deleted, whether or not the driver
logout throws, and also when the session is absent from the registry: the
result is the same successful state for every value of the logout
outcome. -/
theorem C9_deleteSession_total (s : SMState) (sessionId : String) (logoutFails : Bool) :
    deleteSession s sessionId logoutFails =
      Except.ok
        { sessions := eraseAssoc s.sessions sessionId,
          authFiles := s.authFiles.filter (fun a => a ≠ authPathFor s sessionId) } := rfl

/-- C10: a drip-scheduler tick is a complete no-op when the session is not
connected or the single-flight sending guard is held: the returned state,
including the queue, the effect lists and the attempt counter, is exactly
the input state. -/
theorem C10_tick_noop (maxRetries : Nat) (sendOk : String → Nat → Bool)
    (st : DripState) (sid : String)
    (h : st.sendingLock = true ∨ st.connected = false) :
    processDripQueue maxRetries sendOk st sid = st := by
  rcases h with h | h
  · simp [processDripQueue, h]
  · simp [processDripQueue, h]

/-- C10 witness: a concrete tick with the sending guard held leaves the
state unchanged. -/
theorem C10_tick_noop_witness :
    (c10State.sendingLock = true ∨ c10State.connected = false) ∧
    processDripQueue 3 (fun _ _ => true) c10State "S" = c10State :=
  ⟨Or.inl rfl, C10_tick_noop 3 (fun _ _ => true) c10State "S" (Or.inl rfl)⟩

/-- C2: once dequeue has returned a message, its id is in the processed-id
set of the resulting state, remains there across any later sequence of
queue operations that does not include clearProcessedIds, and afterwards
enqueuing any message carrying that id (in particular a retry with an
incremented retry counter) is a no-op returning the state unchanged. -/
theorem C2_processed_id_blocks_reenqueue (s : QueueState) (sid : String) (m : QueuedMessage)
    (h : (dequeue s sid).1 = some m) :
    m.id ∈ (dequeue s sid).2.processedIds ∧
    ∀ ops : List QueueOp, QueueOp.clearProcessedIdsOp ∉ ops →
      m.id ∈ (applyOps (dequeue s sid).2 ops).processedIds ∧
      ∀ m' : QueuedMessage, m'.id = m.id →
        enqueue (applyOps (dequeue s sid).2 ops) m' = applyOps (dequeue s sid).2 ops := by
  have h1 := dequeue_mem_processed s sid m h
  refine ⟨h1, ?_⟩
  intro ops hops
  have h2 := processedIds_mono_ops m.id ops hops _ h1
  refine ⟨h2, ?_⟩
  intro m' hm'
  exact enqueue_of_processed _ m' (by rw [hm']; exact h2)

/-- C2 witness: dequeuing the only message of a concrete one-message queue
puts its id in the processed set and blocks every later enqueue of that
id. -/
theorem C2_processed_id_blocks_reenqueue_witness :
    (dequeue c2State "S").1 = some c1MsgA ∧
    (c1MsgA.id ∈ (dequeue c2State "S").2.processedIds ∧
      ∀ ops : List QueueOp, QueueOp.clearProcessedIdsOp ∉ ops →
        c1MsgA.id ∈ (applyOps (dequeue c2State "S").2 ops).processedIds ∧
        ∀ m' : QueuedMessage, m'.id = c1MsgA.id →
          enqueue (applyOps (dequeue c2State "S").2 ops) m' =
            applyOps (dequeue c2State "S").2 ops) :=
  ⟨rfl, C2_processed_id_blocks_reenqueue c2State "S" c1MsgA rfl⟩

/-- C6: enqueue admits a message id at most once per session: re-enqueuing
a message with the same id and session key is a no-op on the whole state,
and starting from a state where the id is neither processed nor present in
the session queue, the queue holds exactly one entry with that id after
both enqueues. -/
theorem C6_enqueue_idempotent (s : QueueState) (m m' : QueuedMessage)
    (hid : m'.id = m.id) (hsk : sessionKey m' = sessionKey m) :
    enqueue (enqueue s m) m' = enqueue s m ∧
    (m.id ∉ s.processedIds → countId s (sessionKey m) m.id = 0 →
      countId (enqueue (enqueue s m) m') (sessionKey m) m.id = 1) := by
  by_cases hp : m.id ∈ s.processedIds
  · constructor
    · rw [enqueue_of_processed s m hp, enqueue_of_processed s m' (by rw [hid]; exact hp)]
    · intro hnp
      exact absurd hp hnp
  · by_cases hq : ((getAssoc s.queues (sessionKey m)).getD []).any (fun x => x.id == m.id) = true
    · have h1 : enqueue s m = s := enqueue_of_inqueue s m hp hq
      have h2 : enqueue s m' = s := by
        refine enqueue_of_inqueue s m' (by rw [hid]; exact hp) ?_
        rw [hsk, hid]
        exact hq
      constructor
      · rw [h1, h2]
      · intro hnp hcount
        rcases List.any_eq_true.mp hq with ⟨x, hx, hbeq⟩
        have := (List.countP_eq_zero.mp hcount) x hx
        exact absurd hbeq this
    · have h1 := enqueue_push s m hp hq
      have hget :
          getAssoc (enqueue s m).queues (sessionKey m) =
            some (((getAssoc s.queues (sessionKey m)).getD []) ++ [m]) := by
        rw [h1]
        exact getAssoc_setAssoc_self _ _ _
      have hproc : (enqueue s m).processedIds = s.processedIds := enqueue_processedIds s m
      have hany :
          ((getAssoc (enqueue s m).queues (sessionKey m')).getD []).any
            (fun x => x.id == m'.id) = true := by
        rw [hsk, hget]
        refine List.any_eq_true.mpr ⟨m, ?_, ?_⟩
        · exact List.mem_append_right _ (List.mem_singleton_self m)
        · rw [hid]
          exact beq_self_eq_true m.id
      have h2 : enqueue (enqueue s m) m' = enqueue s m := by
        refine enqueue_of_inqueue (enqueue s m) m' ?_ hany
        rw [hid, hproc]
        exact hp
      refine ⟨h2, ?_⟩
      intro _ hcount
      rw [h2]
      unfold countId
      rw [hget]
      unfold countId at hcount
      simp only [Option.getD_some, List.countP_append]
      rw [hcount]
      simp [List.countP_cons]

/-- C6 witness: enqueuing the same concrete message twice into the empty
queue state yields exactly one entry for its id. -/
theorem C6_enqueue_idempotent_witness :
    c1MsgA.id = c1MsgA.id ∧ sessionKey c1MsgA = sessionKey c1MsgA ∧
    (enqueue (enqueue emptyQueueState c1MsgA) c1MsgA = enqueue emptyQueueState c1MsgA ∧
      (c1MsgA.id ∉ emptyQueueState.processedIds →
        countId emptyQueueState (sessionKey c1MsgA) c1MsgA.id = 0 →
        countId (enqueue (enqueue emptyQueueState c1MsgA) c1MsgA)
          (sessionKey c1MsgA) c1MsgA.id = 1)) :=
  ⟨rfl, rfl, C6_enqueue_idempotent emptyQueueState c1MsgA c1MsgA rfl rfl⟩

/-- C5 amended: for a registered session below the reconnect ceiling, the
scheduled reconnect delay equals min(1000 * 2 ^ (a + 1), 30000) where a is
the reconnect-attempt counter before the loss (the code increments the
counter before computing the delay, so the first reconnect after a
successful connection is delayed 2 s rather than 1 s), and no scheduled
delay ever exceeds 30000 ms. -/
theorem C5_delay_formula (s : SMState) (sid : String) (d : MSessionData)
    (hfind : getAssoc s.sessions sid = some d)
    (hlt : d.reconnectAttempts < maxReconnectAttempts) :
    (closeRecoverable s sid).2 = some (min (1000 * 2 ^ (d.reconnectAttempts + 1)) 30000) ∧
    ∀ t : Nat, (closeRecoverable s sid).2 = some t → t ≤ 30000 := by
  have hmain :
      (closeRecoverable s sid).2 = some (min (1000 * 2 ^ (d.reconnectAttempts + 1)) 30000) := by
    unfold closeRecoverable
    rw [hfind]
    dsimp only
    rw [if_pos hlt]
  refine ⟨hmain, ?_⟩
  intro t ht
  rw [hmain] at ht
  obtain rfl : min (1000 * 2 ^ (d.reconnectAttempts + 1)) 30000 = t := by simpa using ht
  exact min_le_right _ _

/-- C5 witness: the session of the concrete initial state is below the
ceiling and its scheduled reconnect delay is computed by the amended
formula and bounded by 30 s. -/
theorem C5_delay_formula_witness :
    getAssoc c4Init.sessions "S" = some c4InitData ∧
    c4InitData.reconnectAttempts < maxReconnectAttempts ∧
    ((closeRecoverable c4Init "S").2 =
        some (min (1000 * 2 ^ (c4InitData.reconnectAttempts + 1)) 30000) ∧
      ∀ t : Nat, (closeRecoverable c4Init "S").2 = some t → t ≤ 30000) :=
  ⟨rfl, by decide, C5_delay_formula c4Init "S" c4InitData rfl (by decide)⟩

theorem attemptDelay_getD (i : Nat) : attemptDelay i = webhookDelays.getD i 0 := by
  cases i with
  | zero => rfl
  | succ j => rw [attemptDelay, if_neg (Nat.succ_ne_zero j)]

theorem notifyTenantLoop_length (sig : Option String) (ok : Nat → Bool) :
    ∀ (fuel a0 : Nat), (notifyTenantLoop sig ok fuel a0).length ≤ fuel := by
  intro fuel
  induction fuel with
  | zero => intro a0; simp [notifyTenantLoop]
  | succ n ih =>
    intro a0
    unfold notifyTenantLoop
    dsimp only
    split
    · simp
    · simpa using ih (a0 + 1)

theorem notifyTenantLoop_get? (sig : Option String) (ok : Nat → Bool) :
    ∀ (fuel a0 i : Nat) (att : WebhookAttemptRec),
      (notifyTenantLoop sig ok fuel a0).get? i = some att →
      att = { delayBefore := attemptDelay (a0 + i), headerAttempt := a0 + i + 1,
              signature := sig } ∧
      ((notifyTenantLoop sig ok fuel a0).get? (i + 1) ≠ none → ok (a0 + i) = false) := by
  intro fuel
  induction fuel with
  | zero => intro a0 i att h; simp [notifyTenantLoop] at h
  | succ n ih =>
    intro a0 i att h
    by_cases hk : ok a0 = true
    · have hL : notifyTenantLoop sig ok (n + 1) a0 =
          [{ delayBefore := attemptDelay a0, headerAttempt := a0 + 1, signature := sig }] := by
        unfold notifyTenantLoop
        rw [if_pos hk]
      rw [hL] at h ⊢
      cases i with
      | zero =>
        obtain rfl := (Option.some.inj h).symm
        refine ⟨rfl, ?_⟩
        intro habs
        exact absurd rfl habs
      | succ j => simp at h
    · have hL : notifyTenantLoop sig ok (n + 1) a0 =
          { delayBefore := attemptDelay a0, headerAttempt := a0 + 1, signature := sig } ::
            notifyTenantLoop sig ok n (a0 + 1) := by
        simp only [notifyTenantLoop]
        rw [if_neg hk]
      rw [hL] at h ⊢
      cases i with
      | zero =>
        obtain rfl := (Option.some.inj h).symm
        refine ⟨rfl, ?_⟩
        intro _
        cases hok : ok a0 with
        | true => exact absurd hok hk
        | false => exact hok
      | succ j =>
        have hrec := ih (a0 + 1) j att h
        have e : a0 + 1 + j = a0 + (j + 1) := by omega
        constructor
        · rw [hrec.1, e]
        · intro hne
          have := hrec.2 hne
          rwa [e] at this

/-- C3 amended: for a configured URL, at most maxAttempts HTTP POST
attempts happen; the attempt with index i (counting from 0) is preceded by
the fixed delay at index i of the schedule, carries X-Webhook-Attempt
equal to i + 1 (attempts are numbered from 1 in the header, not from 0),
every attempt carries the same signature computed once from the unchanged
payload when a secret is given, and a further attempt exists only if the
previous one failed. -/
theorem C3_webhook_schedule (hmac : String → String → String) (url payload : String)
    (secret : Option String) (ok : Nat → Bool) (maxRetries : Nat) (hurl : url ≠ "") :
    (notifyTenant hmac url payload secret ok maxRetries).length ≤ maxRetries ∧
    ∀ (i : Nat) (att : WebhookAttemptRec),
      (notifyTenant hmac url payload secret ok maxRetries).get? i = some att →
      att.delayBefore = webhookDelays.getD i 0 ∧
      att.headerAttempt = i + 1 ∧
      att.signature = secret.map (fun sec => hmac payload sec) ∧
      ((notifyTenant hmac url payload secret ok maxRetries).get? (i + 1) ≠ none →
        ok i = false) := by
  have hN : notifyTenant hmac url payload secret ok maxRetries =
      notifyTenantLoop (secret.map (fun sec => hmac payload sec)) ok maxRetries 0 := by
    unfold notifyTenant
    rw [if_neg hurl]
  rw [hN]
  constructor
  · exact notifyTenantLoop_length _ ok maxRetries 0
  · intro i att h
    have hrec := notifyTenantLoop_get? _ ok maxRetries 0 i att h
    have e0 : 0 + i = i := Nat.zero_add i
    refine ⟨?_, ?_, ?_, ?_⟩
    · rw [hrec.1]
      dsimp only
      rw [e0, attemptDelay_getD]
    · rw [hrec.1]
      dsimp only
      rw [e0]
    · rw [hrec.1]
    · intro hne
      have := hrec.2 hne
      rwa [e0] at this

/-- C3 witness: the spec scenario with a secret configured, the first
attempt failing and the second succeeding, instantiated at a concrete URL,
payload and HMAC function. -/
theorem C3_webhook_schedule_witness :
    ("https://tenant.example" : String) ≠ "" ∧
    ((notifyTenant hmacModel "https://tenant.example" "payload" (some "sec") c3Ok 3).length ≤ 3 ∧
      ∀ (i : Nat) (att : WebhookAttemptRec),
        (notifyTenant hmacModel "https://tenant.example" "payload" (some "sec") c3Ok 3).get? i =
            some att →
        att.delayBefore = webhookDelays.getD i 0 ∧
        att.headerAttempt = i + 1 ∧
        att.signature = (some "sec").map (fun sec => hmacModel "payload" sec) ∧
        ((notifyTenant hmacModel "https://tenant.example" "payload" (some "sec") c3Ok 3).get?
            (i + 1) ≠ none → c3Ok i = false)) :=
  ⟨by decide,
    C3_webhook_schedule hmacModel "https://tenant.example" "payload" (some "sec") c3Ok 3
      (by decide)⟩

/-- C7 amended: addSSEClient and removeSSEClient preserve the
no-empty-viewer-set invariant, and broadcastMessageToSSE preserves it
provided at least one registered viewer of the target session accepts the
write; when every write fails the session stays bound to an empty set (see
the counterexample), pruned only by a later removeSSEClient. -/
theorem C7_empty_set_pruning (s : SSEState) (h : noEmptySets s) :
    (∀ sid v, noEmptySets (addSSEClient s sid v)) ∧
    (∀ sid v, noEmptySets (removeSSEClient s sid v)) ∧
    (∀ (sid : String) (writeOk : Viewer → Bool),
      (∀ vs, getAssoc s.sseClients sid = some vs → ∃ v ∈ vs, writeOk v = true) →
      noEmptySets (broadcastMessageToSSE s sid writeOk)) := by
  refine ⟨?_, ?_, ?_⟩
  · intro sid v p hp
    unfold addSSEClient at hp
    cases hg : getAssoc s.sseClients sid with
    | none =>
      rw [hg] at hp
      dsimp only at hp
      rcases mem_setAssoc _ _ _ _ hp with h1 | h1
      · rw [h1]
        simp
      · exact h p h1
    | some vs =>
      rw [hg] at hp
      dsimp only at hp
      rcases mem_setAssoc _ _ _ _ hp with h1 | h1
      · rw [h1]
        have hvs : vs ≠ [] := h (sid, vs) (getAssoc_mem _ _ _ hg)
        by_cases hv : v ∈ vs
        · simpa [hv] using hvs
        · simp [hv]
      · exact h p h1
  · intro sid v p hp
    unfold removeSSEClient at hp
    cases hg : getAssoc s.sseClients sid with
    | none =>
      rw [hg] at hp
      exact h p hp
    | some vs =>
      rw [hg] at hp
      dsimp only at hp
      by_cases hlen : (vs.filter (fun x => x ≠ v)).length = 0
      · rw [if_pos hlen] at hp
        exact h p (mem_eraseAssoc _ _ _ hp)
      · rw [if_neg hlen] at hp
        rcases mem_setAssoc _ _ _ _ hp with h1 | h1
        · rw [h1]
          intro hnil
          exact hlen (by rw [show (vs.filter (fun x => x ≠ v)) = [] from hnil]; rfl)
        · exact h p h1
  · intro sid writeOk hex p hp
    unfold broadcastMessageToSSE at hp
    cases hg : getAssoc s.sseClients sid with
    | none =>
      rw [hg] at hp
      exact h p hp
    | some vs =>
      rw [hg] at hp
      dsimp only at hp
      by_cases hlen : vs.length = 0
      · rw [if_pos hlen] at hp
        exact h p hp
      · rw [if_neg hlen] at hp
        rcases mem_setAssoc _ _ _ _ hp with h1 | h1
        · rw [h1]
          show vs.filter writeOk ≠ []
          rcases hex vs hg with ⟨v, hv, hw⟩
          exact List.ne_nil_of_mem (List.mem_filter.mpr ⟨hv, hw⟩)
        · exact h p h1

/-- C7 witness: the preserved invariant instantiated at a concrete
broadcaster state with one session and one viewer. -/
theorem C7_empty_set_pruning_witness :
    noEmptySets c7Viewers ∧
    ((∀ sid v, noEmptySets (addSSEClient c7Viewers sid v)) ∧
      (∀ sid v, noEmptySets (removeSSEClient c7Viewers sid v)) ∧
      (∀ (sid : String) (writeOk : Viewer → Bool),
        (∀ vs, getAssoc c7Viewers.sseClients sid = some vs → ∃ v ∈ vs, writeOk v = true) →
        noEmptySets (broadcastMessageToSSE c7Viewers sid writeOk))) :=
  ⟨by intro p hp; rw [List.mem_singleton.mp hp]; simp,
    C7_empty_set_pruning c7Viewers (by intro p hp; rw [List.mem_singleton.mp hp]; simp)⟩

theorem jsOr_falsy (a b : Option String) (ha : strTruthy a = false)
    (hb : strTruthy b = false) : strTruthy (jsOr a b) = false := by
  unfold jsOr
  rw [ha]
  simpa using hb

theorem pollStep_skip (sid : String) (acc : QueueState × List PollEffect) (m : PolledMessage)
    (hj : strTruthy m.jid = false) (hp : strTruthy m.phone_number = false) :
    pollStep sid acc m =
      (acc.1, acc.2 ++ [PollEffect.markFailed m.id "No recipient identifier provided"]) := by
  unfold pollStep
  rw [if_pos (jsOr_falsy m.jid m.phone_number hj hp)]

theorem pollStep_snd (sid : String) (acc : QueueState × List PollEffect) (m : PolledMessage) :
    ∃ e, (pollStep sid acc m).2 = acc.2 ++ [e] := by
  unfold pollStep
  split
  · exact ⟨_, rfl⟩
  · exact ⟨_, rfl⟩

theorem poll_effect_preserved (sid : String) (e : PollEffect) :
    ∀ (msgs : List PolledMessage) (acc : QueueState × List PollEffect),
      e ∈ acc.2 → e ∈ (msgs.foldl (pollStep sid) acc).2 := by
  intro msgs
  induction msgs with
  | nil => intro acc h; simpa using h
  | cons m0 rest ih =>
    intro acc h
    rw [List.foldl_cons]
    rcases pollStep_snd sid acc m0 with ⟨e0, he⟩
    exact ih _ (by rw [he]; exact List.mem_append_left _ h)

theorem poll_markFailed_mem (sid : String) (m : PolledMessage)
    (hj : strTruthy m.jid = false) (hp : strTruthy m.phone_number = false) :
    ∀ (msgs : List PolledMessage) (acc : QueueState × List PollEffect), m ∈ msgs →
      PollEffect.markFailed m.id "No recipient identifier provided" ∈
        (msgs.foldl (pollStep sid) acc).2 := by
  intro msgs
  induction msgs with
  | nil => intro acc hmem; simp at hmem
  | cons m0 rest ih =>
    intro acc hmem
    rw [List.foldl_cons]
    rcases List.mem_cons.mp hmem with heq | hmem'
    · refine poll_effect_preserved sid _ rest _ ?_
      rw [heq] at hj hp ⊢
      rw [pollStep_skip sid acc m0 hj hp]
      rw [← heq]
      exact List.mem_append_right _ (by rw [heq]; exact List.mem_singleton_self _)
    · exact ih _ hmem'

theorem poll_no_enqueue (sid : String) (m : PolledMessage)
    (hj : strTruthy m.jid = false) (hp : strTruthy m.phone_number = false) :
    ∀ (msgs : List PolledMessage) (acc : QueueState × List PollEffect),
      (∀ m' ∈ msgs, m'.id = m.id → m' = m) →
      PollEffect.enqueued m.id ∉ acc.2 →
      PollEffect.enqueued m.id ∉ (msgs.foldl (pollStep sid) acc).2 := by
  intro msgs
  induction msgs with
  | nil => intro acc _ hna; simpa using hna
  | cons m0 rest ih =>
    intro acc huniq hna
    rw [List.foldl_cons]
    refine ih _ (fun m' hm' => huniq m' (List.mem_cons_of_mem _ hm')) ?_
    by_cases hcond : strTruthy (jsOr m0.jid m0.phone_number) = false
    · have hstep : pollStep sid acc m0 =
          (acc.1, acc.2 ++ [PollEffect.markFailed m0.id "No recipient identifier provided"]) := by
        unfold pollStep
        rw [if_pos hcond]
      rw [hstep]
      intro hin
      rcases List.mem_append.mp hin with hin | hin
      · exact hna hin
      · simp at hin
    · have hstep : pollStep sid acc m0 =
          (enqueue acc.1 (polledToQueued sid m0), acc.2 ++ [PollEffect.enqueued m0.id]) := by
        unfold pollStep
        rw [if_neg hcond]
      rw [hstep]
      intro hin
      rcases List.mem_append.mp hin with hin | hin
      · exact hna hin
      · have heq : PollEffect.enqueued m.id = PollEffect.enqueued m0.id :=
          List.mem_singleton.mp hin
        have hid : m0.id = m.id := by
          injection heq with h'
          exact h'.symm
        have hm0 : m0 = m := huniq m0 (List.mem_cons_self _ _) hid
        apply hcond
        rw [hm0]
        exact jsOr_falsy m.jid m.phone_number hj hp

/-- C8: a polled storage record with neither recipient field populated
(both jid and phone number falsy) is processed by marking it failed with
the descriptive reason and leaving the queue component untouched; over a
whole poll batch the failed mark is emitted and, when no other record of
the batch shares its id, no enqueue of its id ever happens. -/
theorem C8_no_recipient_never_enqueued (sid : String) (msgs : List PolledMessage)
    (q : QueueState) (m : PolledMessage) (hm : m ∈ msgs)
    (hj : strTruthy m.jid = false) (hp : strTruthy m.phone_number = false)
    (huniq : ∀ m' ∈ msgs, m'.id = m.id → m' = m) :
    (∀ acc : QueueState × List PollEffect,
      pollStep sid acc m =
        (acc.1, acc.2 ++ [PollEffect.markFailed m.id "No recipient identifier provided"])) ∧
    PollEffect.markFailed m.id "No recipient identifier provided" ∈
      (pollSupabaseForMessages sid msgs q).2 ∧
    PollEffect.enqueued m.id ∉ (pollSupabaseForMessages sid msgs q).2 := by
  refine ⟨fun acc => pollStep_skip sid acc m hj hp, ?_, ?_⟩
  · exact poll_markFailed_mem sid m hj hp msgs (q, []) hm
  · exact poll_no_enqueue sid m hj hp msgs (q, []) huniq (by simp)

/-- C8 witness: a concrete batch with one record whose jid is absent and
whose phone number is the empty string. -/
theorem C8_no_recipient_never_enqueued_witness :
    c8Msg ∈ [c8Msg] ∧ strTruthy c8Msg.jid = false ∧ strTruthy c8Msg.phone_number = false ∧
    (∀ m' ∈ [c8Msg], m'.id = c8Msg.id → m' = c8Msg) ∧
    ((∀ acc : QueueState × List PollEffect,
        pollStep "S" acc c8Msg =
          (acc.1, acc.2 ++ [PollEffect.markFailed c8Msg.id "No recipient identifier provided"])) ∧
      PollEffect.markFailed c8Msg.id "No recipient identifier provided" ∈
        (pollSupabaseForMessages "S" [c8Msg] emptyQueueState).2 ∧
      PollEffect.enqueued c8Msg.id ∉ (pollSupabaseForMessages "S" [c8Msg] emptyQueueState).2) :=
  ⟨List.mem_singleton_self _, rfl, rfl, fun _ hm' _ => List.mem_singleton.mp hm',
    C8_no_recipient_never_enqueued "S" [c8Msg] emptyQueueState c8Msg
      (List.mem_singleton_self _) rfl rfl (fun _ hm' _ => List.mem_singleton.mp hm')⟩

end WhatsappService
